import Mathlib

/-!
Verification development for the chat-agent streaming bridge
(NestJS + BullMQ + Redis streams backend).

The definitions below are a shallow embedding of the TypeScript source:

* `src/chat_agents/constants/models.constant.ts` (supported models)
* `src/chat_agents/utils/redis-stream.utils.ts` (key/job-id generation,
  stream pre-checks, append helpers)
* `src/chat_agents/utils/stream-error.handler.ts` (key/format validation,
  error taxonomy)
* `src/chat_agents/coversation.service.ts`
  (`SimpleChatAgentService.startAgentJob`, `SimpleChatAgentService.getStream`
   poll loop, `SimpleChatAgentProcessor.process` producer loop)
* `src/common/config/globalConfig.ts` and `stream.types.ts`
  (TTL/poll configuration constants)

Redis is modelled by its documented semantics: `XLEN` of a missing key is 0
(it does not raise), `XADD` creates the key without an expiry and never
changes an existing expiry, `EXPIRE` on a missing key is a no-op.
-/

namespace ChatbotClone

/-! ## Configuration constants -/

/-- `SUPPORTED_MODELS` from `models.constant.ts`: the two accepted model
selector strings. -/
def SUPPORTED_MODELS : List String := ["gpt-4o-mini", "gpt-4o"]

/-- `stream` section of `globalConfig.ts` with the default environment values:
`STREAM_TTL=600`, `STREAM_ERROR_TTL=60`, `STREAM_MAX_IDLE_TIME=120`
(all in seconds). -/
structure StreamConfig where
  ttl : Nat
  errorTtl : Nat
  maxIdleTime : Nat
deriving DecidableEq

/-- The default configuration values of `globalConfig.ts`. -/
def defaultStreamConfig : StreamConfig := ⟨600, 60, 120⟩

/-- `STREAM_CONFIG.BLOCK_TIME` (ms) from `stream.types.ts`. -/
def BLOCK_TIME : Nat := 100

/-- `STREAM_CONFIG.POLL_INTERVAL` (ms) from `stream.types.ts`. -/
def POLL_INTERVAL : Nat := 50

/-- `STREAM_CONFIG.REDIS_RETRY_DELAY` (ms) from `stream.types.ts`. -/
def REDIS_RETRY_DELAY : Nat := 1000

/-- `getStream` computes `maxEmptyPolls = (maxIdleTime * 1000) / 100`. -/
def maxEmptyPollsOf (cfg : StreamConfig) : Nat := cfg.maxIdleTime * 1000 / 100

/-! ## Decimal rendering of numbers

JavaScript renders an integer-valued `number` in a template literal as its
decimal digit string; `natDecChars` computes that digit list.  The fuel
argument (`n + 1` is always enough fuel, since a number has at most `n + 1`
digits) keeps the recursion structural so that terms evaluate by `decide`. -/

/-- The decimal digit character for `d` (callers only pass `d < 10`;
values `≥ 9` collapse onto `'9'`, keeping the function total on digits). -/
def digitChar : Nat → Char
  | 0 => '0'
  | 1 => '1'
  | 2 => '2'
  | 3 => '3'
  | 4 => '4'
  | 5 => '5'
  | 6 => '6'
  | 7 => '7'
  | 8 => '8'
  | _ => '9'

/-- Fuelled decimal rendering; `fuel` bounds the number of digits. -/
def natDecCharsAux : Nat → Nat → List Char
  | 0, _ => []
  | fuel + 1, n =>
    if n < 10 then [digitChar n]
    else natDecCharsAux fuel (n / 10) ++ [digitChar (n % 10)]

/-- Decimal digit list of `n`, as a JS template literal renders it. -/
def natDecChars (n : Nat) : List Char := natDecCharsAux (n + 1) n

/-! ## Key and job-id generation (`redis-stream.utils.ts`) -/

/-- `RedisStreamUtils.generateJobId`: the template literal
`job_<Date.now()>_<Math.random().toString(36).slice(2, 11)>`, with the clock
value and the random base-36 suffix as parameters. -/
def generateJobId (now : Nat) (rand : String) : String :=
  ⟨"job_".data ++ (natDecChars now ++ ('_' :: rand.data))⟩

/-- `RedisStreamUtils.generateStreamKey`: the template literal
`llm:stream:<conversationId>:<model>:<jobId>`.  The conversation id is the
conversation row's generated primary key, a natural number. -/
def generateStreamKey (conversationId : Nat) (model : String) (jobId : String) : String :=
  ⟨"llm:stream:".data ++ (natDecChars conversationId ++ (':' :: (model.data ++ (':' :: jobId.data))))⟩

/-! ## Stream-key validation (`stream-error.handler.ts`)

`StreamValidator.validateStreamKey` tests the key against the regex
`^llm:stream:\d+:[a-zA-Z0-9\-_.]+:[a-zA-Z0-9_]+$`.  None of the three
character classes contains `':'`, so the regex matches exactly when the
string is the literal prefix followed by three greedy class segments
separated by `':'`; the matcher below implements that decomposition. -/

/-- Character class `[a-zA-Z0-9\-_.]` (the model segment). -/
def isModelChar (c : Char) : Bool :=
  c.isAlpha || c.isDigit || c == '-' || c == '_' || c == '.'

/-- Character class `[a-zA-Z0-9_]` (the job-id segment). -/
def isJobChar (c : Char) : Bool :=
  c.isAlpha || c.isDigit || c == '_'

/-- Consume an exact literal from the front of a character list. -/
def stripLitChars : List Char → List Char → Option (List Char)
  | [], rest => some rest
  | _ :: _, [] => none
  | p :: ps, c :: cs => if c = p then stripLitChars ps cs else none

/-- Greedily consume characters satisfying `cls`; return them and the rest. -/
def munch (cls : Char → Bool) : List Char → List Char × List Char
  | [] => ([], [])
  | c :: cs =>
    if cls c then
      let r := munch cls cs
      (c :: r.1, r.2)
    else ([], c :: cs)

/-- Match one-or-more `cls` characters followed by `':'`; return the rest. -/
def segThenColon (cls : Char → Bool) (l : List Char) : Option (List Char) :=
  match munch cls l with
  | (_ :: _, ':' :: r) => some r
  | _ => none

/-- Match one-or-more `cls` characters reaching the end of the string. -/
def segEnd (cls : Char → Bool) (l : List Char) : Bool :=
  match munch cls l with
  | (_ :: _, []) => true
  | _ => false

/-- The regex test of `StreamValidator.validateStreamKey` on a char list. -/
def validateKeyChars (l : List Char) : Bool :=
  match stripLitChars "llm:stream:".data l with
  | some r1 =>
    match segThenColon Char.isDigit r1 with
    | some r2 =>
      match segThenColon isModelChar r2 with
      | some r3 => segEnd isJobChar r3
      | none => false
    | none => false
  | none => false

/-- `StreamValidator.validateStreamKey`: `true` exactly when the key passes
(the TypeScript version throws a `StreamError` otherwise; a missing key also
fails the regex, covering the `!streamKey` guard). -/
def validateStreamKey (s : String) : Bool := validateKeyChars s.data

/-! ## Records and Redis operations

Each record appended by the producer has the single field pair
`('data', JSON.stringify(...))`.  The reader parses the fields back
(`parseRedisFields` then `safeJsonParse`) and inspects
`parsedData.metadata?.isComplete`.  `RecordData` is the parsed view of one
record: a plain engine chunk (which carries no `metadata.isComplete`), or a
`StreamCompletionData` terminal written by the producer (`type: 'completion'`
on success, `type: 'error'` with `metadata.error` on failure, both with
`metadata.isComplete = true` and the job id). -/

/-- Parsed payload of one stream record. -/
inductive RecordData where
  | fragment (payload : String)
  | completion (isError : Bool) (jobId : String)
deriving DecidableEq

/-- `parsedData.metadata?.isComplete` — `true` exactly on the producer's
terminal sentinels. -/
def isTerminal : RecordData → Bool
  | .completion _ _ => true
  | .fragment _ => false

/-- A write issued against Redis: `XADD key * field value ...`
or `EXPIRE key ttl`. -/
inductive RedisOp where
  | xadd (key : String) (fields : List (String × RecordData))
  | expire (key : String) (ttl : Nat)
deriving DecidableEq

/-- `parseRedisFields(fields)['data']`: the value stored under the field name
`data` (first occurrence wins; producer records have a single field). -/
def dataField : List (String × RecordData) → Option RecordData
  | [] => none
  | (k, v) :: rest => if k = "data" then some v else dataField rest

/-- Keys targeted by the `XADD` operations of a trace, in order. -/
def appendKeys : List RedisOp → List String
  | [] => []
  | .xadd k _ :: rest => k :: appendKeys rest
  | .expire _ _ :: rest => appendKeys rest

/-- The parsed records appended to stream `k` by a trace, in append order. -/
def recordsAppendedTo (k : String) : List RedisOp → List RecordData
  | [] => []
  | .xadd k' fields :: rest =>
    if k' = k then
      match dataField fields with
      | some d => d :: recordsAppendedTo k rest
      | none => recordsAppendedTo k rest
    else recordsAppendedTo k rest
  | .expire _ _ :: rest => recordsAppendedTo k rest

/-! ## The producer (`SimpleChatAgentProcessor.process`)

A run of `process` on a job envelope: the engine (`agent.stream`) yields a
sequence of chunks and then either finishes normally or raises.  The `try`
block appends each chunk (`XADD ... data JSON.stringify(chunk)`) followed by
`EXPIRE streamKey streamTtl`, then appends the success completion record.
The `catch` block appends the error completion record and issues
`EXPIRE streamKey errorTtl`.  Any exception inside the `try` (engine failure
or a failed append) takes the `catch` path; `EngineResult.failure cs e`
stands for a run whose first `cs` chunk appends succeeded before the
exception. -/

/-- The outcome of one engine invocation as observed by the `try` block. -/
inductive EngineResult where
  | success (chunks : List String)
  | failure (chunks : List String) (errMsg : String)
deriving DecidableEq

/-- The chunks whose appends completed during the run. -/
def engineChunks : EngineResult → List String
  | .success cs => cs
  | .failure cs _ => cs

/-- Whether the run took the `catch` path. -/
def isEngineFailure : EngineResult → Bool
  | .success _ => false
  | .failure _ _ => true

/-- The job envelope stored in the queue (`ChatAgentJob` in
`stream.types.ts`).  BullMQ redelivers an envelope with this data unchanged. -/
structure ChatAgentJob where
  conversationId : Nat
  message : String
  model : String
  userId : Nat
  jobId : String
deriving DecidableEq

/-- Line 341 of the processor re-derives the stream key with the template
literal `llm:stream:<conversationId>:<model>:<jobId>` from `job.data` — the
same key `generateStreamKey` produced at submission time. -/
def processStreamKey (j : ChatAgentJob) : String :=
  generateStreamKey j.conversationId j.model j.jobId

/-- The per-chunk body of the `for await` loop: append the chunk, then
refresh the TTL. -/
def fragmentOps (key : String) (ttl : Nat) : List String → List RedisOp
  | [] => []
  | c :: cs =>
    .xadd key [("data", .fragment c)] :: .expire key ttl :: fragmentOps key ttl cs

/-- The Redis writes performed by one run of
`SimpleChatAgentProcessor.process` on envelope `j` whose engine invocation
behaves as `r`. -/
def processTrace (cfg : StreamConfig) (j : ChatAgentJob) : EngineResult → List RedisOp
  | .success cs =>
    fragmentOps (processStreamKey j) cfg.ttl cs
      ++ [.xadd (processStreamKey j) [("data", .completion false j.jobId)]]
  | .failure cs _ =>
    fragmentOps (processStreamKey j) cfg.ttl cs
      ++ [.xadd (processStreamKey j) [("data", .completion true j.jobId)],
          .expire (processStreamKey j) cfg.errorTtl]

/-- `true` when an operation is an `XADD` whose field names are exactly
`['data']` (an `EXPIRE` imposes no field constraint). -/
def fieldsAreDataOnly : RedisOp → Bool
  | .xadd _ fields => fields.map Prod.fst == ["data"]
  | .expire _ _ => true

/-! ## Key lifecycle state (Redis expiry semantics)

Per-key effect of a trace: `XADD` creates a missing key (with no expiry) and
leaves the expiry of an existing key untouched; `EXPIRE` resets the expiry of
an existing key and is a no-op on a missing key. -/

/-- State of one Redis key: whether it exists, and its pending expiry
(`none` = the key never expires). -/
structure KeyState where
  keyLive : Bool
  ttl : Option Nat
deriving DecidableEq

/-- Before any write the key is absent. -/
def initialKeyState : KeyState := ⟨false, none⟩

/-- Effect of one operation on the state of key `k`. -/
def applyRedisOp (k : String) (st : KeyState) : RedisOp → KeyState
  | .xadd k' _ => if k' = k then (if st.keyLive then st else ⟨true, none⟩) else st
  | .expire k' t => if k' = k ∧ st.keyLive then ⟨st.keyLive, some t⟩ else st

/-- Run a trace against the state of key `k`. -/
def runRedisOps (k : String) (st : KeyState) (ops : List RedisOp) : KeyState :=
  ops.foldl (applyRedisOp k) st

/-- The full write history of one job run as seen by key `k`:
`startAgentJob` line 132 issues `EXPIRE streamKey streamTtl` at submission
time — before the stream has been created by any append — and then the
processor run appends. -/
def jobLifecycleOps (cfg : StreamConfig) (j : ChatAgentJob) (r : EngineResult) : List RedisOp :=
  .expire (processStreamKey j) cfg.ttl :: processTrace cfg j r

/-! ## The reader poll loop (`SimpleChatAgentService.getStream`)

Each iteration of `pollForMessages` issues
`XREAD BLOCK 100 STREAMS streamKey lastId` and then:

* non-null result: set `emptyPollCount = 0`, emit each message in order, and
  complete the observable as soon as a message with
  `metadata.isComplete` is emitted (later messages of the same batch are not
  emitted);
* null result: `emptyPollCount++`; if `emptyPollCount >= maxEmptyPolls`
  signal the timeout error;
* a read error whose message contains `Connection is closed` or
  `ECONNREFUSED`: schedule the next poll after `REDIS_RETRY_DELAY`
  (the counter is untouched and nothing is surfaced);
* any other read error: signal it on the observable.

One `PollResult` is what a single `XREAD` attempt produced. -/

/-- Result of one `XREAD` attempt in the poll loop. -/
inductive PollResult where
  | messages (batch : List RecordData)
  | nothing
  | connectionError
  | otherError (msg : String)
deriving DecidableEq

/-- How the loop ended (or where it stands after the supplied reads):
`completed` is `observer.complete()` on a terminal sentinel,
`idleTimeout` is the `Stream timeout` error, `otherError` re-raises a
non-connection read error, `active c` means the loop is still polling with
`emptyPollCount = c`. -/
inductive ReaderOutcome where
  | completed
  | idleTimeout
  | otherError (msg : String)
  | active (emptyPollCount : Nat)
deriving DecidableEq

/-- Emit a batch in order up to and including the first terminal record;
the Boolean reports whether a terminal was reached. -/
def emitUntilTerminal : List RecordData → List RecordData × Bool
  | [] => ([], false)
  | d :: ds =>
    if isTerminal d then ([d], true)
    else
      let r := emitUntilTerminal ds
      (d :: r.1, r.2)

/-- One iteration of `pollForMessages` at counter value `count`. -/
def pollStep (maxEmptyPolls count : Nat) : PollResult → ReaderOutcome × List RecordData
  | .messages batch =>
    let e := emitUntilTerminal batch
    if e.2 then (.completed, e.1) else (.active 0, e.1)
  | .nothing =>
    if maxEmptyPolls ≤ count + 1 then (.idleTimeout, []) else (.active (count + 1), [])
  | .connectionError => (.active count, [])
  | .otherError msg => (.otherError msg, [])

/-- Run the poll loop over a sequence of `XREAD` results, collecting the
records emitted to the observer. -/
def readerRun (maxEmptyPolls : Nat) : Nat → List PollResult → ReaderOutcome × List RecordData
  | count, [] => (.active count, [])
  | count, p :: ps =>
    match pollStep maxEmptyPolls count p with
    | (.active c, es) =>
      let r := readerRun maxEmptyPolls c ps
      (r.1, es ++ r.2)
    | (o, es) => (o, es)

/-- Concatenation of the record batches a sequence of reads delivered.
Since `XREAD` is issued from `lastId` (starting at `'0'`) and ids are
assigned monotonically, the batches of one reader partition a prefix of the
log in order. -/
def joinBatches : List PollResult → List RecordData
  | [] => []
  | .messages b :: ps => b ++ joinBatches ps
  | _ :: ps => joinBatches ps

/-! ## Reader attach pre-check (`checkStreamExists` / `validateStreamData`)

The SSE endpoint first validates the key format, then calls
`SimpleChatAgentService.checkStreamExists` (which issues `XLEN`) and feeds
the result to `StreamValidator.validateStreamData`.  On a reachable store
`XLEN` of a missing key returns `0` and does not raise, so the `catch`
branch of `RedisStreamUtils.checkStreamExists` (the only place that reports
`exists: false`) is unreachable, and the function returns
`exists: true` with the length. -/

/-- The log store: each key holds the list of records appended to it
(`none` = no stream was ever created at that key). -/
def Store : Type := String → Option (List RecordData)

/-- `XLEN`: 0 for a missing key. -/
def xlen (store : Store) (k : String) : Nat := ((store k).getD []).length

/-- `StreamErrorType` from `stream.types.ts`. -/
inductive StreamErrorType where
  | notFound
  | empty
  | invalidType
  | connectionError
  | timeout
deriving DecidableEq

/-- `StreamValidationResult` (the `error` message field is omitted). -/
structure StreamValidationResult where
  existsFlag : Bool
  messageCount : Nat
deriving DecidableEq

/-- `RedisStreamUtils.checkStreamExists` on a reachable store. -/
def checkStreamExists (store : Store) (k : String) : StreamValidationResult :=
  ⟨true, xlen store k⟩

/-- `StreamValidator.validateStreamData`: `NOT_FOUND` when the stream is
reported missing, `EMPTY` when it is reported present with zero records. -/
def validateStreamData (existsFlag : Bool) (messageCount : Nat) :
    Except StreamErrorType Unit :=
  if existsFlag = false then .error .notFound
  else if messageCount = 0 then .error .empty
  else .ok ()

/-- The controller's pre-check before a reader may attach
(`ChatAgentsController.streamAgent`): key format, then existence/data. -/
def streamAgentPrecheck (store : Store) (k : String) : Except StreamErrorType Unit :=
  if validateStreamKey k = false then .error .invalidType
  else
    let v := checkStreamExists store k
    validateStreamData v.existsFlag v.messageCount

/-- The full attach: the poll loop runs only when the pre-check passes. -/
def streamAgent (store : Store) (k : String) (maxEmptyPolls : Nat)
    (polls : List PollResult) :
    Except StreamErrorType (ReaderOutcome × List RecordData) :=
  match streamAgentPrecheck store k with
  | .error e => .error e
  | .ok _ => .ok (readerRun maxEmptyPolls 0 polls)

/-! ## Job submission (`SimpleChatAgentService.startAgentJob`) -/

/-- `SimpleChatAgentInput` (DTO). -/
structure SimpleChatAgentInput where
  conversationId : Nat
  message : String
  model : String
deriving DecidableEq

/-- The authenticated user (only the id is consulted). -/
structure User where
  id : Nat
deriving DecidableEq

/-- A conversation row. -/
structure Conversation where
  id : Nat
  userId : Nat
  langGraphThreadId : String
deriving DecidableEq

/-- The two `BadRequestException`s `startAgentJob` can throw. -/
inductive SubmitError where
  | unsupportedModel
  | accessDenied
deriving DecidableEq

/-- Result of a submission: the thrown error or the returned
`(jobId, streamKey)` pair, together with the envelopes added to the
`chat_agents` queue and the Redis writes issued. -/
structure SubmitResult where
  outcome : Except SubmitError (String × String)
  enqueued : List ChatAgentJob
  redisOps : List RedisOp

/-- `SimpleChatAgentService.startAgentJob`.  `findConversation cid uid`
models `conversationRepository.findOne` with `where` clause
`id = cid AND userId = uid`; `jobId` is the value
`RedisStreamUtils.generateJobId()` returned for this call. -/
def startAgentJob (cfg : StreamConfig)
    (findConversation : Nat → Nat → Option Conversation)
    (input : SimpleChatAgentInput) (user : User) (jobId : String) : SubmitResult :=
  if input.model ∈ SUPPORTED_MODELS then
    match findConversation input.conversationId user.id with
    | none => ⟨.error .accessDenied, [], []⟩
    | some _ =>
      let streamKey := generateStreamKey input.conversationId input.model jobId
      ⟨.ok (jobId, streamKey),
       [⟨input.conversationId, input.message, input.model, user.id, jobId⟩],
       [.expire streamKey cfg.ttl]⟩
  else ⟨.error .unsupportedModel, [], []⟩

/-! ## Helper lemmas -/

theorem digitChar_isDigit (d : Nat) : (digitChar d).isDigit = true := by
  unfold digitChar
  split <;> decide

theorem natDecCharsAux_ne_nil (fuel n : Nat) : natDecCharsAux (fuel + 1) n ≠ [] := by
  unfold natDecCharsAux
  split
  · simp
  · simp

theorem natDecChars_ne_nil (n : Nat) : natDecChars n ≠ [] :=
  natDecCharsAux_ne_nil n n

theorem natDecCharsAux_digits (fuel : Nat) :
    ∀ (n : Nat) (c : Char), c ∈ natDecCharsAux fuel n → c.isDigit = true := by
  induction fuel with
  | zero => intro n c hc; simp [natDecCharsAux] at hc
  | succ fuel ih =>
    intro n c hc
    unfold natDecCharsAux at hc
    by_cases h : n < 10
    · rw [if_pos h] at hc
      simp at hc
      rw [hc]
      exact digitChar_isDigit n
    · rw [if_neg h] at hc
      rcases List.mem_append.mp hc with h1 | h2
      · exact ih (n / 10) c h1
      · simp at h2
        rw [h2]
        exact digitChar_isDigit (n % 10)

theorem natDecChars_digits (n : Nat) :
    ∀ c ∈ natDecChars n, c.isDigit = true :=
  fun c hc => natDecCharsAux_digits (n + 1) n c hc

theorem stripLitChars_append (p rest : List Char) :
    stripLitChars p (p ++ rest) = some rest := by
  induction p with
  | nil => rfl
  | cons c cs ih => simp [stripLitChars, ih]

theorem munch_append_stop (cls : Char → Bool) (xs : List Char) (stop : Char)
    (rest : List Char) (hall : ∀ c ∈ xs, cls c = true) (hstop : cls stop = false) :
    munch cls (xs ++ stop :: rest) = (xs, stop :: rest) := by
  induction xs with
  | nil => simp [munch, hstop]
  | cons x xs ih =>
    have hx : cls x = true := hall x (List.mem_cons_self x xs)
    have ih2 := ih (fun c hc => hall c (List.mem_cons_of_mem x hc))
    simp [munch, hx, ih2]

theorem munch_all (cls : Char → Bool) (xs : List Char)
    (hall : ∀ c ∈ xs, cls c = true) : munch cls xs = (xs, []) := by
  induction xs with
  | nil => rfl
  | cons x xs ih =>
    have hx : cls x = true := hall x (List.mem_cons_self x xs)
    have ih2 := ih (fun c hc => hall c (List.mem_cons_of_mem x hc))
    simp [munch, hx, ih2]

theorem segThenColon_append (cls : Char → Bool) (xs rest : List Char)
    (hne : xs ≠ []) (hall : ∀ c ∈ xs, cls c = true) (hcolon : cls ':' = false) :
    segThenColon cls (xs ++ ':' :: rest) = some rest := by
  obtain ⟨x, xs', rfl⟩ := List.exists_cons_of_ne_nil hne
  unfold segThenColon
  rw [munch_append_stop cls (x :: xs') ':' rest hall hcolon]
  rfl

theorem segEnd_all (cls : Char → Bool) (xs : List Char)
    (hne : xs ≠ []) (hall : ∀ c ∈ xs, cls c = true) :
    segEnd cls xs = true := by
  obtain ⟨x, xs', rfl⟩ := List.exists_cons_of_ne_nil hne
  unfold segEnd
  rw [munch_all cls (x :: xs') hall]

theorem validateKeyChars_segments (d m j : List Char)
    (hd : d ≠ []) (hdall : ∀ c ∈ d, Char.isDigit c = true)
    (hm : m ≠ []) (hmall : ∀ c ∈ m, isModelChar c = true)
    (hj : j ≠ []) (hjall : ∀ c ∈ j, isJobChar c = true) :
    validateKeyChars ("llm:stream:".data ++ (d ++ (':' :: (m ++ (':' :: j))))) = true := by
  unfold validateKeyChars
  rw [stripLitChars_append]
  dsimp only
  rw [segThenColon_append Char.isDigit d _ hd hdall (by decide)]
  dsimp only
  rw [segThenColon_append isModelChar m _ hm hmall (by decide)]
  dsimp only
  exact segEnd_all isJobChar j hj hjall

theorem appendKeys_fragmentOps (k : String) (t : Nat) (cs : List String) :
    appendKeys (fragmentOps k t cs) = List.replicate cs.length k := by
  induction cs with
  | nil => rfl
  | cons c cs ih => simp [fragmentOps, appendKeys, ih, List.replicate_succ]

theorem appendKeys_append (l1 l2 : List RedisOp) :
    appendKeys (l1 ++ l2) = appendKeys l1 ++ appendKeys l2 := by
  induction l1 with
  | nil => rfl
  | cons op l1 ih => cases op <;> simp [appendKeys, ih]

theorem appendKeys_processTrace (cfg : StreamConfig) (j : ChatAgentJob) (r : EngineResult) :
    appendKeys (processTrace cfg j r)
      = List.replicate ((engineChunks r).length + 1) (processStreamKey j) := by
  cases r with
  | success cs =>
    simp [processTrace, engineChunks, appendKeys_append, appendKeys_fragmentOps,
      appendKeys, List.replicate_succ']
  | failure cs e =>
    simp [processTrace, engineChunks, appendKeys_append, appendKeys_fragmentOps,
      appendKeys, List.replicate_succ']

theorem recordsAppendedTo_fragmentOps (k : String) (t : Nat) (cs : List String) :
    recordsAppendedTo k (fragmentOps k t cs) = cs.map RecordData.fragment := by
  induction cs with
  | nil => rfl
  | cons c cs ih => simp [fragmentOps, recordsAppendedTo, dataField, ih]

theorem recordsAppendedTo_append (k : String) (l1 l2 : List RedisOp) :
    recordsAppendedTo k (l1 ++ l2)
      = recordsAppendedTo k l1 ++ recordsAppendedTo k l2 := by
  induction l1 with
  | nil => rfl
  | cons op l1 ih =>
    cases op with
    | xadd k' fields =>
      by_cases h : k' = k
      · simp only [recordsAppendedTo, List.cons_append, if_pos h]
        cases dataField fields <;> simp [ih]
      · simp [recordsAppendedTo, if_neg h, ih]
    | expire k' t => simp [recordsAppendedTo, ih]

theorem recordsAppendedTo_processTrace (cfg : StreamConfig) (j : ChatAgentJob)
    (r : EngineResult) :
    recordsAppendedTo (processStreamKey j) (processTrace cfg j r)
      = (engineChunks r).map RecordData.fragment
        ++ [RecordData.completion (isEngineFailure r) j.jobId] := by
  cases r with
  | success cs =>
    simp [processTrace, engineChunks, isEngineFailure, recordsAppendedTo_append,
      recordsAppendedTo_fragmentOps, recordsAppendedTo, dataField]
  | failure cs e =>
    simp [processTrace, engineChunks, isEngineFailure, recordsAppendedTo_append,
      recordsAppendedTo_fragmentOps, recordsAppendedTo, dataField]

theorem countTerminal_map_fragment (cs : List String) :
    (cs.map RecordData.fragment).countP (fun d => isTerminal d) = 0 := by
  induction cs with
  | nil => rfl
  | cons c cs ih => simp [List.countP_cons, isTerminal, ih]

theorem all_not_terminal_map_fragment (cs : List String) :
    (cs.map RecordData.fragment).all (fun d => !isTerminal d) = true := by
  induction cs with
  | nil => rfl
  | cons c cs ih => simp [isTerminal]

theorem fragmentOps_fieldsDataOnly (k : String) (t : Nat) (cs : List String) :
    (fragmentOps k t cs).all fieldsAreDataOnly = true := by
  induction cs with
  | nil => rfl
  | cons c cs ih => simp [fragmentOps, fieldsAreDataOnly] at ih ⊢; exact ih

/-! ### Reader lemmas -/

theorem emitUntilTerminal_append_of_found (xs ys : List RecordData)
    (h : (emitUntilTerminal xs).2 = true) :
    emitUntilTerminal (xs ++ ys) = emitUntilTerminal xs := by
  induction xs with
  | nil => simp [emitUntilTerminal] at h
  | cons d ds ih =>
    cases hd : isTerminal d with
    | true => simp [emitUntilTerminal, hd]
    | false =>
      have h' : (emitUntilTerminal ds).2 = true := by
        simpa [emitUntilTerminal, hd] using h
      simp [emitUntilTerminal, hd, List.append_eq, ih h']

theorem emitUntilTerminal_all_of_not_found (xs : List RecordData)
    (h : (emitUntilTerminal xs).2 = false) :
    (emitUntilTerminal xs).1 = xs := by
  induction xs with
  | nil => rfl
  | cons d ds ih =>
    cases hd : isTerminal d with
    | true => simp [emitUntilTerminal, hd] at h
    | false =>
      have h' : (emitUntilTerminal ds).2 = false := by
        simpa [emitUntilTerminal, hd] using h
      simp [emitUntilTerminal, hd, ih h']

theorem emitUntilTerminal_append_of_not_found (xs ys : List RecordData)
    (h : (emitUntilTerminal xs).2 = false) :
    emitUntilTerminal (xs ++ ys)
      = (xs ++ (emitUntilTerminal ys).1, (emitUntilTerminal ys).2) := by
  induction xs with
  | nil => simp
  | cons d ds ih =>
    cases hd : isTerminal d with
    | true => simp [emitUntilTerminal, hd] at h
    | false =>
      have h' : (emitUntilTerminal ds).2 = false := by
        simpa [emitUntilTerminal, hd] using h
      simp [emitUntilTerminal, hd, List.append_eq, ih h']

theorem readerRun_nothing_continue (maxEP count : Nat) (ps : List PollResult)
    (h : count + 1 < maxEP) :
    readerRun maxEP count (.nothing :: ps) = readerRun maxEP (count + 1) ps := by
  simp [readerRun, pollStep, Nat.not_le_of_lt h]

theorem readerRun_nothing_timeout (maxEP count : Nat) (ps : List PollResult)
    (h : maxEP ≤ count + 1) :
    readerRun maxEP count (.nothing :: ps) = (.idleTimeout, []) := by
  simp [readerRun, pollStep, h]

theorem readerRun_messages_continue (maxEP count : Nat) (batch : List RecordData)
    (ps : List PollResult) (h : (emitUntilTerminal batch).2 = false) :
    readerRun maxEP count (.messages batch :: ps)
      = ((readerRun maxEP 0 ps).1, batch ++ (readerRun maxEP 0 ps).2) := by
  simp [readerRun, pollStep, h, emitUntilTerminal_all_of_not_found batch h]

theorem readerRun_messages_terminal (maxEP count : Nat) (batch : List RecordData)
    (ps : List PollResult) (h : (emitUntilTerminal batch).2 = true) :
    readerRun maxEP count (.messages batch :: ps)
      = (.completed, (emitUntilTerminal batch).1) := by
  simp [readerRun, pollStep, h]

theorem readerRun_connectionError (maxEP count : Nat) (ps : List PollResult) :
    readerRun maxEP count (.connectionError :: ps) = readerRun maxEP count ps := by
  simp [readerRun, pollStep]

theorem readerRun_otherError (maxEP count : Nat) (msg : String)
    (ps : List PollResult) :
    readerRun maxEP count (.otherError msg :: ps) = (.otherError msg, []) := by
  simp [readerRun, pollStep]

theorem connErrors_skipped (maxEP : Nat) (n : Nat) :
    ∀ (count : Nat) (ps : List PollResult),
      readerRun maxEP count (List.replicate n .connectionError ++ ps)
        = readerRun maxEP count ps := by
  induction n with
  | zero => intro count ps; rfl
  | succ n ih =>
    intro count ps
    rw [List.replicate_succ, List.cons_append, readerRun_connectionError]
    exact ih count ps

/-- A reader run that completed emitted exactly the prefix of the records it
was given, up to and including the first terminal sentinel. -/
theorem completed_run_emits (maxEP : Nat) :
    ∀ (ps : List PollResult) (count : Nat),
      (readerRun maxEP count ps).1 = ReaderOutcome.completed →
      (readerRun maxEP count ps).2 = (emitUntilTerminal (joinBatches ps)).1 := by
  intro ps
  induction ps with
  | nil => intro count h; simp [readerRun] at h
  | cons p ps ih =>
    intro count h
    cases p with
    | messages batch =>
      cases hb : (emitUntilTerminal batch).2 with
      | true =>
        rw [readerRun_messages_terminal maxEP count batch ps hb]
        simp only [joinBatches]
        rw [emitUntilTerminal_append_of_found batch (joinBatches ps) hb]
      | false =>
        rw [readerRun_messages_continue maxEP count batch ps hb] at h ⊢
        simp only [joinBatches]
        rw [emitUntilTerminal_append_of_not_found batch (joinBatches ps) hb]
        simp only at h
        rw [ih 0 h]
    | nothing =>
      by_cases hc : maxEP ≤ count + 1
      · rw [readerRun_nothing_timeout maxEP count ps hc] at h
        simp at h
      · rw [readerRun_nothing_continue maxEP count ps (Nat.lt_of_not_le hc)] at h ⊢
        simp only [joinBatches]
        exact ih (count + 1) h
    | connectionError =>
      rw [readerRun_connectionError] at h ⊢
      simp only [joinBatches]
      exact ih count h
    | otherError msg =>
      rw [readerRun_otherError] at h
      simp at h

/-- `maxEmptyPolls` poll cycles of `BLOCK_TIME` ms account for exactly the
configured max idle duration (`maxIdleTime` seconds). -/
theorem maxEmptyPolls_block_time (cfg : StreamConfig) :
    maxEmptyPollsOf cfg * BLOCK_TIME = cfg.maxIdleTime * 1000 := by
  unfold maxEmptyPollsOf BLOCK_TIME
  have h : (100 : Nat) ∣ cfg.maxIdleTime * 1000 := ⟨cfg.maxIdleTime * 10, by ring⟩
  exact Nat.div_mul_cancel h

theorem isJobChar_of_isDigit (c : Char) (h : c.isDigit = true) : isJobChar c = true := by
  simp [isJobChar, h]

theorem isJobChar_of_isLower (c : Char) (h : c.isLower = true) : isJobChar c = true := by
  simp [isJobChar, Char.isAlpha, h]

/-! ## Claim theorems -/

/-- Claim C10: for every conversation id (a generated primary key), every
model in the supported set, and every job id produced by `generateJobId`
(any clock value; the random suffix `Math.random().toString(36).slice(2,11)`
consists of lowercase base-36 characters), the stream key produced by
`generateStreamKey` is accepted by `StreamValidator.validateStreamKey`. -/
theorem generated_keys_validate (cid now : Nat) (rand m : String)
    (hm : m ∈ SUPPORTED_MODELS)
    (hrand : ∀ c ∈ rand.data, c.isDigit = true ∨ c.isLower = true) :
    validateStreamKey (generateStreamKey cid m (generateJobId now rand)) = true := by
  have hkey : validateStreamKey (generateStreamKey cid m (generateJobId now rand))
      = validateKeyChars ("llm:stream:".data ++ (natDecChars cid
          ++ (':' :: (m.data ++ (':' :: ("job_".data
          ++ (natDecChars now ++ ('_' :: rand.data)))))))) := rfl
  rw [hkey]
  have hjob : "job_".data = ['j', 'o', 'b', '_'] := rfl
  apply validateKeyChars_segments
  · exact natDecChars_ne_nil cid
  · exact natDecChars_digits cid
  · have : m = "gpt-4o-mini" ∨ m = "gpt-4o" := by simpa [SUPPORTED_MODELS] using hm
    rcases this with rfl | rfl <;> decide
  · have : m = "gpt-4o-mini" ∨ m = "gpt-4o" := by simpa [SUPPORTED_MODELS] using hm
    rcases this with rfl | rfl <;> decide
  · rw [hjob]; simp
  · intro c hc
    rw [hjob] at hc
    rcases List.mem_append.mp hc with h1 | h2
    · fin_cases h1 <;> decide
    · rcases List.mem_append.mp h2 with h3 | h4
      · exact isJobChar_of_isDigit c (natDecChars_digits now c h3)
      · rcases List.mem_cons.mp h4 with rfl | h5
        · decide
        · rcases hrand c h5 with hd | hl
          · exact isJobChar_of_isDigit c hd
          · exact isJobChar_of_isLower c hl

theorem generated_keys_validate_witness :
    ("gpt-4o" ∈ SUPPORTED_MODELS)
  ∧ (∀ c ∈ ("a1b2c3d4e" : String).data, c.isDigit = true ∨ c.isLower = true)
  ∧ validateStreamKey
      (generateStreamKey 42 ("gpt-4o") (generateJobId 1700000000000 ("a1b2c3d4e")))
      = true :=
  ⟨by decide, by decide,
    generated_keys_validate 42 1700000000000 ("a1b2c3d4e") ("gpt-4o")
      (by decide) (by decide)⟩

/-- Claim C8: `startAgentJob` rejects a model outside the supported set with
the unsupported-model error and rejects a failed ownership lookup with the
access-denied error, in both cases enqueueing nothing; otherwise it enqueues
exactly one envelope and returns the `(jobId, streamKey)` pair. -/
theorem startAgentJob_contract (cfg : StreamConfig)
    (findConversation : Nat → Nat → Option Conversation)
    (input : SimpleChatAgentInput) (user : User) (jobId : String) :
    (input.model ∉ SUPPORTED_MODELS →
      startAgentJob cfg findConversation input user jobId
        = ⟨.error .unsupportedModel, [], []⟩)
  ∧ (input.model ∈ SUPPORTED_MODELS →
      findConversation input.conversationId user.id = none →
      startAgentJob cfg findConversation input user jobId
        = ⟨.error .accessDenied, [], []⟩)
  ∧ (∀ conv, input.model ∈ SUPPORTED_MODELS →
      findConversation input.conversationId user.id = some conv →
      (startAgentJob cfg findConversation input user jobId).outcome
          = .ok (jobId, generateStreamKey input.conversationId input.model jobId)
        ∧ (startAgentJob cfg findConversation input user jobId).enqueued
          = [⟨input.conversationId, input.message, input.model, user.id, jobId⟩]) := by
  refine ⟨?_, ?_, ?_⟩
  · intro h
    simp [startAgentJob, h]
  · intro h hnone
    simp [startAgentJob, h, hnone]
  · intro conv h hsome
    constructor <;> simp [startAgentJob, h, hsome]

theorem startAgentJob_contract_witness :
    startAgentJob defaultStreamConfig (fun _ _ => none) ⟨1, "hi", "gpt-5"⟩ ⟨5⟩ ("job_1_a")
      = ⟨.error .unsupportedModel, [], []⟩
  ∧ startAgentJob defaultStreamConfig (fun _ _ => none) ⟨1, "hi", "gpt-4o"⟩ ⟨5⟩ ("job_1_a")
      = ⟨.error .accessDenied, [], []⟩
  ∧ (startAgentJob defaultStreamConfig (fun _ _ => some ⟨1, 5, "t"⟩)
        ⟨1, "hi", "gpt-4o"⟩ ⟨5⟩ ("job_1_a")).outcome
      = .ok (("job_1_a"), generateStreamKey 1 ("gpt-4o") ("job_1_a"))
  ∧ (startAgentJob defaultStreamConfig (fun _ _ => some ⟨1, 5, "t"⟩)
        ⟨1, "hi", "gpt-4o"⟩ ⟨5⟩ ("job_1_a")).enqueued
      = [⟨1, "hi", "gpt-4o", 5, "job_1_a"⟩] := by
  refine ⟨?_, ?_, ?_, ?_⟩
  · exact (startAgentJob_contract defaultStreamConfig (fun _ _ => none)
      ⟨1, "hi", "gpt-5"⟩ ⟨5⟩ ("job_1_a")).1 (by decide)
  · exact (startAgentJob_contract defaultStreamConfig (fun _ _ => none)
      ⟨1, "hi", "gpt-4o"⟩ ⟨5⟩ ("job_1_a")).2.1 (by decide) rfl
  · exact ((startAgentJob_contract defaultStreamConfig (fun _ _ => some ⟨1, 5, "t"⟩)
      ⟨1, "hi", "gpt-4o"⟩ ⟨5⟩ ("job_1_a")).2.2 ⟨1, 5, "t"⟩ (by decide) rfl).1
  · exact ((startAgentJob_contract defaultStreamConfig (fun _ _ => some ⟨1, 5, "t"⟩)
      ⟨1, "hi", "gpt-4o"⟩ ⟨5⟩ ("job_1_a")).2.2 ⟨1, 5, "t"⟩ (by decide) rfl).2

/-- Claim C1 counterexample: BullMQ redelivers an envelope with its stored
`job.data` unchanged, and `process` derives both the job id and the stream
key deterministically from that data.  For the concrete envelope below, a
first (failed) run and a redelivered run both append to the very same
stream key, and the combined log interleaves the two runs' records — the
redelivered run does not get a fresh `jobId`/log address. -/
theorem redelivery_reuses_log_cex :
    processStreamKey ⟨1, "ping", "gpt-4o", 5, "job_1_a"⟩
      ∈ appendKeys (processTrace defaultStreamConfig
          ⟨1, "ping", "gpt-4o", 5, "job_1_a"⟩ (.failure ["p"] ("boom")))
  ∧ processStreamKey ⟨1, "ping", "gpt-4o", 5, "job_1_a"⟩
      ∈ appendKeys (processTrace defaultStreamConfig
          ⟨1, "ping", "gpt-4o", 5, "job_1_a"⟩ (.success ["p", "i"]))
  ∧ recordsAppendedTo (processStreamKey ⟨1, "ping", "gpt-4o", 5, "job_1_a"⟩)
      (processTrace defaultStreamConfig
          ⟨1, "ping", "gpt-4o", 5, "job_1_a"⟩ (.failure ["p"] ("boom"))
        ++ processTrace defaultStreamConfig
          ⟨1, "ping", "gpt-4o", 5, "job_1_a"⟩ (.success ["p", "i"]))
      = [.fragment ("p"), .completion true ("job_1_a"),
         .fragment ("p"), .fragment ("i"), .completion false ("job_1_a")] := by
  refine ⟨by decide, by decide, by decide⟩

/-- Claim C1 (amended): every run of an envelope — first delivery or
redelivery — appends exclusively to the single stream key derived
deterministically from the envelope's `conversationId`, `model` and `jobId`
(the key `generateStreamKey` minted at submission); a redelivered run
therefore reuses the same job id and log address as every earlier run of
that envelope and appends to the same log. -/
theorem process_appends_deterministic_key (cfg : StreamConfig)
    (j : ChatAgentJob) (r : EngineResult) :
    appendKeys (processTrace cfg j r)
      = List.replicate ((engineChunks r).length + 1) (processStreamKey j)
  ∧ processStreamKey j = generateStreamKey j.conversationId j.model j.jobId
  ∧ appendKeys (processTrace cfg j r) ≠ [] := by
  refine ⟨appendKeys_processTrace cfg j r, rfl, ?_⟩
  rw [appendKeys_processTrace]
  simp

/-- Claim C2 counterexample: after a stall/retry redelivery, the redelivered
run appends to the log already holding the first run's error sentinel, so a
single job log ends up with two terminal sentinels and with appends after
the first sentinel. -/
theorem two_terminals_after_redelivery_cex :
    recordsAppendedTo (processStreamKey ⟨2, "hi", "gpt-4o-mini", 7, "job_2_b"⟩)
      (processTrace defaultStreamConfig
          ⟨2, "hi", "gpt-4o-mini", 7, "job_2_b"⟩ (.failure ["a"] ("engine down"))
        ++ processTrace defaultStreamConfig
          ⟨2, "hi", "gpt-4o-mini", 7, "job_2_b"⟩ (.success ["a", "b"]))
      = [.fragment ("a"), .completion true ("job_2_b"),
         .fragment ("a"), .fragment ("b"), .completion false ("job_2_b")]
  ∧ (recordsAppendedTo (processStreamKey ⟨2, "hi", "gpt-4o-mini", 7, "job_2_b"⟩)
      (processTrace defaultStreamConfig
          ⟨2, "hi", "gpt-4o-mini", 7, "job_2_b"⟩ (.failure ["a"] ("engine down"))
        ++ processTrace defaultStreamConfig
          ⟨2, "hi", "gpt-4o-mini", 7, "job_2_b"⟩ (.success ["a", "b"]))).countP
      (fun d => isTerminal d) = 2 := by
  refine ⟨by decide, by decide⟩

/-- Claim C2 (amended): within a single run of `process`, exactly one
terminal sentinel is appended to the job log, and it is the final append of
the run — the producer performs no further appends to that log in that run.
(Across Work Queue redeliveries the same log can receive further appends,
including a second sentinel, because the redelivered run reuses the same
stream key.) -/
theorem single_run_single_terminal (cfg : StreamConfig) (j : ChatAgentJob)
    (r : EngineResult) :
    (recordsAppendedTo (processStreamKey j) (processTrace cfg j r)).countP
        (fun d => isTerminal d) = 1
  ∧ (recordsAppendedTo (processStreamKey j) (processTrace cfg j r)).dropLast.all
        (fun d => !isTerminal d) = true := by
  rw [recordsAppendedTo_processTrace]
  constructor
  · rw [List.countP_append, countTerminal_map_fragment]
    simp [List.countP_cons, isTerminal]
  · rw [List.dropLast_concat]
    exact all_not_terminal_map_fragment _

/-- Claim C9 counterexample: a fragment append carries the single field pair
`('data', JSON.stringify(chunk))` — there is no producer-assigned
`sequence` field on any appended record. -/
theorem fragment_record_no_sequence_cex :
    processTrace defaultStreamConfig ⟨3, "q", "gpt-4o", 9, "job_3_c"⟩ (.success ["tok"])
      = [.xadd (processStreamKey ⟨3, "q", "gpt-4o", 9, "job_3_c"⟩)
           [(("data"), .fragment ("tok"))],
         .expire (processStreamKey ⟨3, "q", "gpt-4o", 9, "job_3_c"⟩) 600,
         .xadd (processStreamKey ⟨3, "q", "gpt-4o", 9, "job_3_c"⟩)
           [(("data"), .completion false ("job_3_c"))]]
  ∧ ("sequence" : String) ∉ [("data" : String)] := by
  refine ⟨rfl, by decide⟩

/-- Claim C9 (amended): every record the producer appends — fragment or
terminal — carries exactly one field, named `data`, holding the serialized
payload; ordering is given solely by the log-assigned record ids, and no
producer-assigned `sequence` attribute exists. -/
theorem producer_records_single_data_field (cfg : StreamConfig)
    (j : ChatAgentJob) (r : EngineResult) :
    (processTrace cfg j r).all fieldsAreDataOnly = true := by
  cases r with
  | success cs =>
    simp [processTrace, List.all_append, fieldsAreDataOnly,
      fragmentOps_fieldsDataOnly]
  | failure cs e =>
    simp [processTrace, List.all_append, fieldsAreDataOnly,
      fragmentOps_fieldsDataOnly]

/-- Claim C3 (code evaluation): Redis `XLEN` of a missing key returns 0
without raising, so `checkStreamExists` reports `exists: true` for a stream
that was never created, and the pre-check rejects a missing log with
`EMPTY` — not `NOT_FOUND` as the claim states.  A present-but-empty log is
also rejected with `EMPTY` (that part of the claim holds), and in both
cases the rejected attach never runs the poll loop. -/
theorem missing_stream_precheck_yields_empty :
    streamAgentPrecheck (fun _ => none) (generateStreamKey 1 ("gpt-4o") ("job_1_a"))
      = .error .empty
  ∧ StreamErrorType.empty ≠ StreamErrorType.notFound
  ∧ streamAgent (fun _ => none) (generateStreamKey 1 ("gpt-4o") ("job_1_a"))
      (maxEmptyPollsOf defaultStreamConfig) [.messages [.fragment ("x")]]
      = .error .empty
  ∧ streamAgentPrecheck
      (fun k => if k = generateStreamKey 1 ("gpt-4o") ("job_1_a") then some [] else none)
      (generateStreamKey 1 ("gpt-4o") ("job_1_a"))
      = .error .empty := by
  refine ⟨rfl, by decide, rfl, rfl⟩

/-- Claim C4 (code evaluation): for a job whose engine yields zero fragments
and completes successfully, the log ends up existing with **no** expiry at
all: the only `EXPIRE` before the first append is the one `startAgentJob`
issues against the not-yet-created key (a Redis no-op), and the success path
never sets a TTL.  With at least one fragment the claim's behaviour holds:
each fragment append refreshes the TTL to the live value (600), an error
terminal shortens it to 60, and 60 < 600. -/
theorem zero_fragment_success_leaves_no_ttl :
    runRedisOps (processStreamKey ⟨4, "m", "gpt-4o", 3, "job_4_d"⟩) initialKeyState
        (jobLifecycleOps defaultStreamConfig ⟨4, "m", "gpt-4o", 3, "job_4_d"⟩
          (.success []))
      = ⟨true, none⟩
  ∧ runRedisOps (processStreamKey ⟨4, "m", "gpt-4o", 3, "job_4_d"⟩) initialKeyState
        (jobLifecycleOps defaultStreamConfig ⟨4, "m", "gpt-4o", 3, "job_4_d"⟩
          (.success ["p"]))
      = ⟨true, some 600⟩
  ∧ runRedisOps (processStreamKey ⟨4, "m", "gpt-4o", 3, "job_4_d"⟩) initialKeyState
        (jobLifecycleOps defaultStreamConfig ⟨4, "m", "gpt-4o", 3, "job_4_d"⟩
          (.failure ["p"] ("x")))
      = ⟨true, some 60⟩
  ∧ defaultStreamConfig.errorTtl < defaultStreamConfig.ttl := by
  refine ⟨rfl, rfl, rfl, by decide⟩

/-- Claim C5: in the poll loop, an empty bounded-wait read increments the
idle-poll counter and a non-empty read resets it to zero; as soon as the
counter reaches `maxEmptyPolls` — the number of `BLOCK_TIME`-ms cycles whose
accumulated wait equals the configured `maxIdleTime` — the reader stops with
the idle-timeout failure, an outcome distinct from the graceful completion
produced by a terminal sentinel. -/
theorem reader_idle_poll_protocol (cfg : StreamConfig) (count : Nat)
    (ps : List PollResult) (batch : List RecordData) :
    (count + 1 < maxEmptyPollsOf cfg →
      readerRun (maxEmptyPollsOf cfg) count (.nothing :: ps)
        = readerRun (maxEmptyPollsOf cfg) (count + 1) ps)
  ∧ ((emitUntilTerminal batch).2 = false →
      readerRun (maxEmptyPollsOf cfg) count (.messages batch :: ps)
        = ((readerRun (maxEmptyPollsOf cfg) 0 ps).1,
           batch ++ (readerRun (maxEmptyPollsOf cfg) 0 ps).2))
  ∧ (maxEmptyPollsOf cfg ≤ count + 1 →
      readerRun (maxEmptyPollsOf cfg) count (.nothing :: ps) = (.idleTimeout, []))
  ∧ ((emitUntilTerminal batch).2 = true →
      readerRun (maxEmptyPollsOf cfg) count (.messages batch :: ps)
        = (.completed, (emitUntilTerminal batch).1))
  ∧ maxEmptyPollsOf cfg * BLOCK_TIME = cfg.maxIdleTime * 1000
  ∧ ReaderOutcome.idleTimeout ≠ ReaderOutcome.completed := by
  refine ⟨readerRun_nothing_continue _ _ _,
    readerRun_messages_continue _ _ _ _,
    readerRun_nothing_timeout _ _ _,
    readerRun_messages_terminal _ _ _ _,
    maxEmptyPolls_block_time cfg, by decide⟩

theorem reader_idle_poll_protocol_witness :
    readerRun (maxEmptyPollsOf defaultStreamConfig) 0 [.nothing]
      = readerRun (maxEmptyPollsOf defaultStreamConfig) 1 []
  ∧ readerRun (maxEmptyPollsOf defaultStreamConfig) 0 [.messages [.fragment ("x")]]
      = ((readerRun (maxEmptyPollsOf defaultStreamConfig) 0 []).1,
         [.fragment ("x")] ++ (readerRun (maxEmptyPollsOf defaultStreamConfig) 0 []).2)
  ∧ readerRun (maxEmptyPollsOf defaultStreamConfig) 1199 [.nothing]
      = (.idleTimeout, [])
  ∧ readerRun (maxEmptyPollsOf defaultStreamConfig) 0
        [.messages [.completion false ("j")]]
      = (.completed, (emitUntilTerminal [.completion false ("j")]).1) := by
  refine ⟨?_, ?_, ?_, ?_⟩
  · exact (reader_idle_poll_protocol defaultStreamConfig 0 [] []).1 (by decide)
  · exact (reader_idle_poll_protocol defaultStreamConfig 0 [] [.fragment ("x")]).2.1
      (by decide)
  · exact (reader_idle_poll_protocol defaultStreamConfig 1199 [] []).2.2.1 (by decide)
  · exact (reader_idle_poll_protocol defaultStreamConfig 0 []
      [.completion false ("j")]).2.2.2.1 (by decide)

/-- Claim C6 counterexample: a run of 5000 consecutive connection-error
reads — far beyond the only configured cycle bound, `maxEmptyPolls = 1200` —
leaves the reader still polling with its counter untouched, having surfaced
nothing: connection errors are retried without any bound and no
`TransportError` is ever surfaced for them. -/
theorem transport_error_never_surfaced_cex :
    readerRun (maxEmptyPollsOf defaultStreamConfig) 0
        (List.replicate 5000 .connectionError)
      = (.active 0, [])
  ∧ maxEmptyPollsOf defaultStreamConfig < 5000 := by
  constructor
  · have h := connErrors_skipped (maxEmptyPollsOf defaultStreamConfig) 5000 0 []
    rw [List.append_nil] at h
    rw [h]
    rfl
  · decide

/-- Claim C6 (amended): a read failing with a connection error is retried
after the fixed `REDIS_RETRY_DELAY` (1000 ms) without bound — any number of
consecutive connection errors leaves the loop state unchanged and surfaces
nothing to the viewer; only a non-connection read error is surfaced, and it
is surfaced immediately without any retry. -/
theorem connection_errors_retried_unbounded (maxEP n count : Nat)
    (ps : List PollResult) (msg : String) :
    readerRun maxEP count (List.replicate n .connectionError ++ ps)
      = readerRun maxEP count ps
  ∧ readerRun maxEP count (.otherError msg :: ps) = (.otherError msg, [])
  ∧ REDIS_RETRY_DELAY = 1000 :=
  ⟨connErrors_skipped maxEP n count ps, readerRun_otherError maxEP count msg ps, rfl⟩

/-- Claim C7: replay idempotence — whenever two readers (one attached during
generation, one attached from the start after completion) each complete
gracefully after being delivered, in order, the full record sequence a
producer run appended to the job log (split into `XREAD` batches in any
way), they emit exactly the same record sequence, terminal sentinel
included. -/
theorem replay_idempotence (maxEP : Nat) (cfg : StreamConfig) (j : ChatAgentJob)
    (r : EngineResult) (livePolls replayPolls : List PollResult)
    (hlive : joinBatches livePolls
      = recordsAppendedTo (processStreamKey j) (processTrace cfg j r))
    (hreplay : joinBatches replayPolls
      = recordsAppendedTo (processStreamKey j) (processTrace cfg j r))
    (hlc : (readerRun maxEP 0 livePolls).1 = .completed)
    (hrc : (readerRun maxEP 0 replayPolls).1 = .completed) :
    (readerRun maxEP 0 replayPolls).2 = (readerRun maxEP 0 livePolls).2 := by
  rw [completed_run_emits maxEP replayPolls 0 hrc,
    completed_run_emits maxEP livePolls 0 hlc, hlive, hreplay]

theorem replay_idempotence_witness :
    joinBatches [.nothing,
        .messages [.fragment ("p"), .fragment ("i")], .nothing,
        .messages [.fragment ("n")],
        .messages [.fragment ("g"), .completion false ("job_1_a")]]
      = recordsAppendedTo (processStreamKey ⟨1, "ping", "gpt-4o", 5, "job_1_a"⟩)
          (processTrace defaultStreamConfig ⟨1, "ping", "gpt-4o", 5, "job_1_a"⟩
            (.success ["p", "i", "n", "g"]))
  ∧ joinBatches [.messages [.fragment ("p"), .fragment ("i"), .fragment ("n"),
        .fragment ("g"), .completion false ("job_1_a")]]
      = recordsAppendedTo (processStreamKey ⟨1, "ping", "gpt-4o", 5, "job_1_a"⟩)
          (processTrace defaultStreamConfig ⟨1, "ping", "gpt-4o", 5, "job_1_a"⟩
            (.success ["p", "i", "n", "g"]))
  ∧ (readerRun (maxEmptyPollsOf defaultStreamConfig) 0 [.nothing,
        .messages [.fragment ("p"), .fragment ("i")], .nothing,
        .messages [.fragment ("n")],
        .messages [.fragment ("g"), .completion false ("job_1_a")]]).1 = .completed
  ∧ (readerRun (maxEmptyPollsOf defaultStreamConfig) 0
        [.messages [.fragment ("p"), .fragment ("i"), .fragment ("n"),
          .fragment ("g"), .completion false ("job_1_a")]]).1 = .completed
  ∧ (readerRun (maxEmptyPollsOf defaultStreamConfig) 0
        [.messages [.fragment ("p"), .fragment ("i"), .fragment ("n"),
          .fragment ("g"), .completion false ("job_1_a")]]).2
      = (readerRun (maxEmptyPollsOf defaultStreamConfig) 0 [.nothing,
          .messages [.fragment ("p"), .fragment ("i")], .nothing,
          .messages [.fragment ("n")],
          .messages [.fragment ("g"), .completion false ("job_1_a")]]).2 := by
  refine ⟨by decide, by decide, by decide, by decide, ?_⟩
  exact replay_idempotence (maxEmptyPollsOf defaultStreamConfig)
    defaultStreamConfig ⟨1, "ping", "gpt-4o", 5, "job_1_a"⟩
    (.success ["p", "i", "n", "g"])
    [.nothing, .messages [.fragment ("p"), .fragment ("i")], .nothing,
      .messages [.fragment ("n")],
      .messages [.fragment ("g"), .completion false ("job_1_a")]]
    [.messages [.fragment ("p"), .fragment ("i"), .fragment ("n"),
      .fragment ("g"), .completion false ("job_1_a")]]
    (by decide) (by decide) (by decide) (by decide)

end ChatbotClone
